import Mathlib

/-!
Verification development for the adaptive Bayesian symptom-elimination engine of
`ai_service/engines/symptom_elimination.py` (class `SymptomEliminationEngine`).

Modelling conventions:

* Python floats are modelled by exact rationals (`ℚ`); all of the engine's
  probability arithmetic (products of likelihoods, normalization by the total
  mass) is plain field arithmetic, so the rational model computes the same
  values the float code approximates.
* Python dicts keyed by strings are modelled by association lists
  (`List (String × _)`), with lookup returning the first binding, exactly as
  the Python `next(...)`/`dict.get` idioms do.
* `str.lower().strip()` is modelled by `pynorm` (ASCII lowercasing and
  whitespace trimming on the character list); the Python `a in b` substring
  test is modelled by `strIn`.
* `_expected_information_gain` computes Shannon entropies with `math.log2` in
  IEEE-754 floating point; those transcendental values are not exactly
  representable, so the engine record carries the score as an abstract
  function field `gainScore`.  Everything else about `_get_best_question`
  (candidate restriction to the top-10 diseases above the 0.01 cutoff, the
  training-cache bonus `+ cache[s] * 0.1`, skipping already-asked symptoms,
  first-seen argmax starting from best_gain = -1) is modelled concretely.
  No property proved below depends on the numeric gain values, only on which
  symptoms are eligible for selection.
* `uuid.uuid4()` session ids are an explicit `sessionId` argument; the
  presentation-only fields of questions and predictions (question text,
  options, formatted percentage and explanation strings) are omitted, and the
  `stop_reason` f-strings are replaced by fixed marker strings, since no
  behaviour reads them back.
* In `update`, the dict keys `confirmed_symptoms`/`observed_symptoms` always
  hold the same list, as do `denied_symptoms`/`negative_symptoms`; each pair
  is modelled by a single field with accessor aliases.
-/

namespace AIMed

/-- ASCII lowercasing of one character, as Python `str.lower` acts on the
ASCII inputs used by the engine. -/
def lowerChar (c : Char) : Char :=
  if 65 ≤ c.toNat ∧ c.toNat ≤ 90 then Char.ofNat (c.toNat + 32) else c

/-- Whitespace test used by `str.strip`. -/
def isSpaceChar (c : Char) : Bool :=
  c = ' ' || c = '\t' || c = '\n' || c = '\r'

/-- Python `s.lower()` on ASCII strings. -/
def lowerStr (s : String) : String := ⟨s.data.map lowerChar⟩

/-- Strip leading and trailing whitespace from a character list. -/
def trimChars (l : List Char) : List Char :=
  ((l.dropWhile isSpaceChar).reverse.dropWhile isSpaceChar).reverse

/-- Python `s.lower().strip()`, the normalization applied to symptom names and
answers throughout the engine. -/
def pynorm (s : String) : String := ⟨trimChars (s.data.map lowerChar)⟩

/-- Does the second list start with the first one? -/
def leadsWith : List Char → List Char → Bool
  | [], _ => true
  | _ :: _, [] => false
  | a :: as, b :: bs => a == b && leadsWith as bs

/-- Contiguous-sublist test on character lists. -/
def hasSub (needle : List Char) : List Char → Bool
  | [] => needle.isEmpty
  | c :: t => leadsWith needle (c :: t) || hasSub needle t

/-- Python substring containment `needle in hay`. -/
def strIn (needle hay : String) : Bool := hasSub needle.data hay.data

/-- One row of the disease-symptom table (`disease_symptoms` entries with
their likelihood weight). -/
structure DSRow where
  disease : String
  symptom : String
  weight : ℚ
deriving DecidableEq

/-- One configured red flag (`red_flags` entries). -/
structure RedFlag where
  symptom : String
  severity : String
  action : String
deriving DecidableEq

/-- One red-flag match produced by `check_red_flags` (keyed by the matching
patient symptom, carrying the flag's severity and action). -/
structure RedFlagHit where
  symptom : String
  severity : String
  action : String
deriving DecidableEq

/-- A pending follow-up question; the source dict also carries question text,
options and the rounded info gain, which nothing reads back. -/
structure Question where
  symptom : String
deriving DecidableEq

/-- Session status (`SessionStatus` enum). -/
inductive SessionStatus where
  | IN_PROGRESS
  | FINISHED
  | EMERGENCY
deriving DecidableEq

/-- One entry of `final_predictions` as built by `_generate_predictions`
(formatted percentage and explanation strings omitted). -/
structure Prediction where
  rank : Nat
  disease : String
  probability : ℚ
  confidence : String
deriving DecidableEq

/-- Constant `MIN_QUESTIONS = 3`. -/
def MIN_QUESTIONS : Nat := 3

/-- Constant `SOFT_MAX_QUESTIONS = 5`. -/
def SOFT_MAX_QUESTIONS : Nat := 5

/-- Constant `HARD_MAX_QUESTIONS = 7`. -/
def HARD_MAX_QUESTIONS : Nat := 7

/-- Constant `HIGH_CONFIDENCE = 0.85`. -/
def HIGH_CONFIDENCE : ℚ := 85 / 100

/-- Constant `MEDIUM_CONFIDENCE = 0.70`. -/
def MEDIUM_CONFIDENCE : ℚ := 70 / 100

/-- Constant `LOW_CONFIDENCE = 0.60`. -/
def LOW_CONFIDENCE : ℚ := 60 / 100

/-- Constant `SMOOTHING_FACTOR = 0.01`. -/
def SMOOTHING_FACTOR : ℚ := 1 / 100

/-- The engine's knowledge base and caches, fixed after `__init__`.
`diseases` and `symptoms` are the deduplicated disease and symptom columns of
`rows`; `gainScore` abstracts `_expected_information_gain` (see the module
comment). -/
structure Engine where
  rows : List DSRow
  diseases : List String
  symptoms : List String
  redFlags : List RedFlag
  diseasePriors : List (String × ℚ)
  infoGainCache : List (String × ℚ)
  gainScore : List (String × ℚ) → String → ℚ

/-- First-binding association-list lookup with a default, as `dict.get`. -/
def lookupD (m : List (String × ℚ)) (k : String) (dflt : ℚ) : ℚ :=
  match m.find? (fun p => p.1 == k) with
  | some p => p.2
  | none => dflt

/-- Likelihood matrix access
`likelihood_matrix.get(disease, {}).get(symptom, SMOOTHING_FACTOR)`.
`_build_likelihood_matrix` fills, for every disease and symptom of the KB, the
weight of the first matching row and the smoothing constant for absent pairs;
any disease or symptom outside the KB falls back to the smoothing constant via
the `dict.get` defaults. -/
def Engine.weight (e : Engine) (d s : String) : ℚ :=
  if d ∈ e.diseases ∧ s ∈ e.symptoms then
    match e.rows.find? (fun r => r.disease == d && r.symptom == s) with
    | some r => r.weight
    | none => SMOOTHING_FACTOR
  else SMOOTHING_FACTOR

/-- Method `check_red_flags`: each configured flag contributes at most one
warning, keyed by the first patient symptom that matches it by substring
containment in either direction (both sides lowercased). -/
def Engine.checkRedFlags (e : Engine) (symptoms : List String) : List RedFlagHit :=
  e.redFlags.filterMap (fun flag =>
    let fs := lowerStr flag.symptom
    (symptoms.find? (fun s => strIn fs (lowerStr s) || strIn (lowerStr s) fs)).map
      (fun s => { symptom := s, severity := flag.severity, action := flag.action }))

/-- Method `_compute_posterior`: per disease, the prior (defaulting to
`1/len(diseases)`) times the likelihood of each confirmed symptom times
`1 - likelihood` of each denied symptom, normalized by the total mass, with a
uniform fallback when the total is not positive.  (For an empty disease list
the Python code would raise `ZeroDivisionError`; such an engine never occurs
since the KB is nonempty, and the claims below assume a nonempty disease
list.) -/
def Engine.computePosterior (e : Engine) (prior : List (String × ℚ))
    (symptoms negSymptoms : List String) : List (String × ℚ) :=
  let score : String → ℚ := fun d =>
    let p0 := lookupD prior d (1 / (e.diseases.length : ℚ))
    let p1 := symptoms.foldl (fun acc s => acc * e.weight d s) p0
    negSymptoms.foldl (fun acc s => acc * (1 - e.weight d s)) p1
  let posterior := e.diseases.map (fun d => (d, score d))
  let total := (posterior.map (fun p => p.2)).sum
  if 0 < total then posterior.map (fun p => (p.1, p.2 / total))
  else e.diseases.map (fun d => (d, 1 / (e.diseases.length : ℚ)))

/-- Stable insertion keeping strictly larger probabilities in front; equal
keys keep their original relative order, as Python's stable `sorted` with
`reverse=True` does. -/
def insertDesc (x : String × ℚ) : List (String × ℚ) → List (String × ℚ)
  | [] => [x]
  | y :: ys => if y.2 < x.2 then x :: y :: ys else y :: insertDesc x ys

/-- Python `sorted(items, key=probability, reverse=True)` (stable). -/
def sortDesc (l : List (String × ℚ)) : List (String × ℚ) :=
  l.foldr insertDesc []

/-- Loop body of `_get_best_question`: skip an already-asked symptom,
otherwise add the cached-training bonus `cache[s] * 0.1` to the gain score and
keep the strictly better of the accumulator (whose gain starts at `-1`) and
the current symptom, so ties keep the first-seen candidate. -/
def selStep (e : Engine) (posterior : List (String × ℚ)) (askedSymptoms : List String)
    (acc : Option (String × ℚ)) (s : String) : Option (String × ℚ) :=
  if s ∈ askedSymptoms then acc
  else
    let gain := e.gainScore posterior s +
      (match e.infoGainCache.find? (fun p => p.1 == s) with
       | some p => p.2 * (1 / 10)
       | none => 0)
    let bestGain : ℚ := match acc with
      | none => -1
      | some b => b.2
    if bestGain < gain then some (s, gain) else acc

/-- Method `_get_best_question`: restrict candidates to the symptoms of the
top-10 diseases above the 0.01 posterior cutoff (every disease's likelihood
row contains every KB symptom, so the union is the whole symptom list as soon
as one top disease is in the matrix), then take the first-seen maximum of the
gain score plus the cached-training bonus over the not-yet-asked candidates,
starting from `best_gain = -1`. -/
def Engine.getBestQuestion (e : Engine) (posterior : List (String × ℚ))
    (askedSymptoms : List String) : Option Question :=
  let topDiseases :=
    (((sortDesc posterior).take 10).filter (fun p => (1 : ℚ) / 100 < p.2)).map (fun p => p.1)
  let candidateSymptoms :=
    if topDiseases.any (fun d => d ∈ e.diseases) then e.symptoms else []
  let best := candidateSymptoms.foldl (selStep e posterior askedSymptoms) none
  best.map (fun b => { symptom := b.1 })

/-- Confidence label thresholds of `_generate_predictions`. -/
def confidenceLabel (p : ℚ) : String :=
  if HIGH_CONFIDENCE ≤ p then "HIGH"
  else if MEDIUM_CONFIDENCE ≤ p then "MEDIUM"
  else if LOW_CONFIDENCE ≤ p then "MODERATE"
  else "LOW"

/-- Method `_generate_predictions`: the top five posterior entries, skipping
probabilities below 0.01 but keeping their enumeration index as the rank. -/
def generatePredictions (posterior : List (String × ℚ)) : List Prediction :=
  (((sortDesc posterior).take 5).enum.filter (fun p => ¬ p.2.2 < (1 : ℚ) / 100)).map
    (fun p =>
      { rank := p.1 + 1, disease := p.2.1, probability := p.2.2,
        confidence := confidenceLabel p.2.2 })

/-- The mutable per-session state dict.  `observedSymptoms` models both the
`observed_symptoms` and `confirmed_symptoms` keys and `negativeSymptoms` both
`negative_symptoms` and `denied_symptoms`, which the source always keeps
identical. -/
structure Session where
  sessionId : String
  probabilities : List (String × ℚ)
  posterior : List (String × ℚ)
  observedSymptoms : List String
  negativeSymptoms : List String
  askedQuestions : List String
  questionCount : Nat
  answers : List (String × String)
  candidateQuestions : List String
  nextQuestion : Option Question
  lastQuestion : Option String
  status : SessionStatus
  redFlags : List RedFlagHit
  stopReason : Option String
  finalPredictions : List Prediction
deriving DecidableEq

/-- Alias for the `confirmed_symptoms` key. -/
def Session.confirmedSymptoms (s : Session) : List String := s.observedSymptoms

/-- Alias for the `denied_symptoms` key. -/
def Session.deniedSymptoms (s : Session) : List String := s.negativeSymptoms

/-- Python dict update `{**answers, key: answer}` on an insertion-ordered
association list. -/
def setAssoc (m : List (String × String)) (k v : String) : List (String × String) :=
  if m.any (fun p => p.1 == k) then
    m.map (fun p => if p.1 == k then (k, v) else p)
  else m ++ [(k, v)]

/-- Method `start`: normalize the initial symptoms, check red flags (EMERGENCY
on any hit, IN_PROGRESS otherwise), compute the initial posterior from the KB
priors, and select the first follow-up question. -/
def Engine.start (e : Engine) (initial : List String) (sessionId : String) : Session :=
  let symptoms := initial.map pynorm
  let redFlags := e.checkRedFlags symptoms
  let posterior := e.computePosterior e.diseasePriors symptoms []
  let sortedProbs := sortDesc posterior
  let nextQ := e.getBestQuestion posterior symptoms
  { sessionId := sessionId
    probabilities := sortedProbs
    posterior := posterior
    observedSymptoms := symptoms
    negativeSymptoms := []
    askedQuestions := []
    questionCount := 0
    answers := []
    candidateQuestions := e.symptoms.filter (fun s => s ∉ symptoms)
    nextQuestion := nextQ
    lastQuestion := none
    status := if redFlags.isEmpty then SessionStatus.IN_PROGRESS else SessionStatus.EMERGENCY
    redFlags := redFlags
    stopReason := none
    finalPredictions := [] }

/-- Resolution of the symptom an `update` call refers to: the explicit
`symptom` argument if given, else the pending question's symptom, else the
first candidate question not yet asked.  (A Python caller passing the empty
string falls through like `None`; the model uses `Option` so the override is
always a real symptom name.) -/
def resolveSymptom (state : Session) (symptomArg : Option String) : Option String :=
  match symptomArg with
  | some s => some s
  | none =>
    match state.nextQuestion with
    | some q => some q.symptom
    | none =>
      match state.candidateQuestions.filter (fun c => c ∉ state.askedQuestions) with
      | [] => none
      | c :: _ => some c

/-- The 3-5-7 stopping decision of `update` (`should_stop`), given the number
of questions asked after the current one was recorded and the top posterior
probability. -/
def shouldStop (questionsAsked : Nat) (topScore : ℚ) : Bool :=
  if questionsAsked < MIN_QUESTIONS then false
  else if questionsAsked < SOFT_MAX_QUESTIONS then decide (HIGH_CONFIDENCE ≤ topScore)
  else if questionsAsked < HARD_MAX_QUESTIONS then decide (LOW_CONFIDENCE ≤ topScore)
  else true

/-- Answer classification of `update`, confirm case: the condition
`"yes" in answer_lower or answer_lower in ["mild","moderate","severe","true","1"]`. -/
def isConfirmAnswer (answerLower : String) : Bool :=
  strIn "yes" answerLower ||
    (["mild", "moderate", "severe", "true", "1"] : List String).contains answerLower

/-- Answer classification of `update`, deny case: the `elif` branch
`"no" in answer_lower or answer_lower in ["false","0"]`, reached only when the
confirm test failed. -/
def isDenyAnswer (answerLower : String) : Bool :=
  !isConfirmAnswer answerLower && (strIn "no" answerLower ||
    (["false", "0"] : List String).contains answerLower)

/-- Main path of `update` once the answered symptom has been resolved:
record the question, classify the answer (anything neither confirming nor
denying leaves the symptom lists unchanged), extend the red flags on a newly
confirmed symptom, recompute the posterior from the KB priors, and apply the
3-5-7 stopping policy, finishing also when no follow-up question remains. -/
def Engine.updateWith (e : Engine) (state : Session) (answer : String)
    (cs0 : String) : Session :=
  let cs := pynorm cs0
  let observed := state.observedSymptoms
  let negative := state.negativeSymptoms
  let answerLower := pynorm answer
  let asked :=
    if cs ∈ state.askedQuestions then state.askedQuestions
    else state.askedQuestions ++ [cs]
  let observed2 :=
    if isConfirmAnswer answerLower ∧ cs ∉ observed then observed ++ [cs] else observed
  let redFlags2 :=
    if isConfirmAnswer answerLower ∧ cs ∉ observed then state.redFlags ++ e.checkRedFlags [cs]
    else state.redFlags
  let negative2 :=
    if isDenyAnswer answerLower ∧ cs ∉ negative then negative ++ [cs] else negative
  let posterior := e.computePosterior e.diseasePriors observed2 negative2
  let sortedProbs := sortDesc posterior
  let topScore := (sortedProbs.headD ("", 0)).2
  let questionsAsked := asked.length
  let stop := shouldStop questionsAsked topScore
  let baseState : Session :=
    { sessionId := state.sessionId
      probabilities := sortedProbs
      posterior := posterior
      observedSymptoms := observed2
      negativeSymptoms := negative2
      askedQuestions := asked
      questionCount := questionsAsked
      answers := setAssoc state.answers cs answer
      candidateQuestions := state.candidateQuestions
      nextQuestion := none
      lastQuestion := some cs
      status := SessionStatus.IN_PROGRESS
      redFlags := redFlags2
      stopReason := none
      finalPredictions := [] }
  if stop then
    { baseState with
        status := SessionStatus.FINISHED
        stopReason := some "policy stop"
        finalPredictions := generatePredictions posterior }
  else
    match e.getBestQuestion posterior (observed2 ++ negative2 ++ asked) with
    | some q => { baseState with nextQuestion := some q }
    | none =>
      { baseState with
          status := SessionStatus.FINISHED
          stopReason := some "All relevant questions exhausted"
          finalPredictions := generatePredictions posterior }

/-- Method `update`: resolve the answered symptom; with none resolvable,
return the state marked FINISHED with final predictions (the early-return
branch), otherwise process the answer.  The source performs no status or
pending-question validity check and never raises: a terminal session is
processed like any other. -/
def Engine.update (e : Engine) (state : Session) (answer : String)
    (symptomArg : Option String) : Session :=
  match resolveSymptom state symptomArg with
  | none =>
    { state with
        status := SessionStatus.FINISHED
        finalPredictions := generatePredictions state.posterior }
  | some cs0 => e.updateWith state answer cs0

/-- Sessions produced by `start` followed by any sequence of answer-only
`update` calls (the public two-argument interface, `symptom=None`). -/
inductive Reachable (e : Engine) : Session → Prop
  | init : ∀ initial sessionId, Reachable e (e.start initial sessionId)
  | step : ∀ s answer, Reachable e s → Reachable e (e.update s answer none)

/-- Spec-side formulation of the unnormalized per-disease mass: prior times
the product of confirmed-symptom likelihoods times the product of
`1 - likelihood` over denied symptoms (the loops of `_compute_posterior`
written as products). -/
def bayesScore (e : Engine) (prior : List (String × ℚ)) (pos neg : List String)
    (d : String) : ℚ :=
  lookupD prior d (1 / (e.diseases.length : ℚ)) *
    (pos.map (fun s => e.weight d s)).prod *
    (neg.map (fun s => 1 - e.weight d s)).prod

/-- Spec-side total mass over all diseases. -/
def bayesTotal (e : Engine) (prior : List (String × ℚ)) (pos neg : List String) : ℚ :=
  (e.diseases.map (bayesScore e prior pos neg)).sum

/-- Invariant carried by every session the answer-only interface can reach,
for an engine whose symptom vocabulary is already normalized (as the CSV
loader guarantees by lowercasing every symptom column): confirmed and denied
symptoms are disjoint, denials were always asked, and the pending question
and the stored candidate pool only offer symptoms that cannot re-enter a
list they are already in. -/
def GoodSession (s : Session) : Prop :=
  (∀ x ∈ s.observedSymptoms, x ∉ s.negativeSymptoms) ∧
  (∀ x ∈ s.negativeSymptoms, x ∈ s.askedQuestions) ∧
  (∀ q : Question, s.nextQuestion = some q →
      pynorm q.symptom = q.symptom ∧ q.symptom ∉ s.observedSymptoms ∧
        q.symptom ∉ s.askedQuestions) ∧
  (∀ c ∈ s.candidateQuestions,
      pynorm c = c ∧ (c ∈ s.observedSymptoms → c ∈ s.askedQuestions))

/-- Concrete engine with one disease and eight symptoms of weight 1/2, no red
flags and no training cache; used to drive concrete runs of the state
machine.  The gain-score surrogate is constantly 0, which only influences
which candidate the selector prefers, never how many questions are asked. -/
def eC : Engine :=
  { rows := (List.range 8).map
      (fun i => { disease := "d", symptom := "s" ++ toString i, weight := 1 / 2 })
    diseases := ["d"]
    symptoms := (List.range 8).map (fun i => "s" ++ toString i)
    redFlags := []
    diseasePriors := [("d", 1)]
    infoGainCache := []
    gainScore := fun _ _ => 0 }

/-- A run of the public interface on `eC`: `start` with no initial symptoms
followed by n `update` calls that all answer "yes". -/
def runC : Nat → Session
  | 0 => eC.start [] "sid"
  | n + 1 => eC.update (runC n) "yes" none

/-- The two-disease knowledge base of the spec's hand-checkable scenario:
diseases A and B with priors 0.5 each, `P(fever|A) = 0.9`, `P(cough|A) = 0.1`,
`P(fever|B) = 0.1`, `P(cough|B) = 0.9`. -/
def eAB : Engine :=
  { rows := [ { disease := "A", symptom := "fever", weight := 9 / 10 },
              { disease := "A", symptom := "cough", weight := 1 / 10 },
              { disease := "B", symptom := "fever", weight := 1 / 10 },
              { disease := "B", symptom := "cough", weight := 9 / 10 } ]
    diseases := ["A", "B"]
    symptoms := ["fever", "cough"]
    redFlags := []
    diseasePriors := [("A", 1 / 2), ("B", 1 / 2)]
    infoGainCache := []
    gainScore := fun _ _ => 0 }

/-- The default red-flag list of `_load_red_flags` (the in-code fallback data
used when no `red_flags.json` is present). -/
def defaultRedFlags : List RedFlag :=
  [ { symptom := "chest pain", severity := "critical",
      action := "Seek emergency care immediately - possible cardiac event" },
    { symptom := "difficulty breathing", severity := "critical",
      action := "Seek emergency care immediately" },
    { symptom := "shortness of breath", severity := "high",
      action := "Consult doctor urgently" },
    { symptom := "severe headache", severity := "high",
      action := "Consult doctor urgently - rule out serious conditions" },
    { symptom := "sudden severe headache", severity := "critical",
      action := "Seek emergency care - possible stroke or aneurysm" },
    { symptom := "confusion", severity := "critical",
      action := "Seek emergency care immediately" },
    { symptom := "loss of consciousness", severity := "critical",
      action := "Call emergency services (911)" },
    { symptom := "severe bleeding", severity := "critical",
      action := "Apply pressure and seek emergency care" },
    { symptom := "high fever", severity := "high",
      action := "Consult doctor within 24 hours" },
    { symptom := "persistent vomiting", severity := "high",
      action := "Consult doctor urgently - risk of dehydration" },
    { symptom := "seizure", severity := "critical",
      action := "Call emergency services, protect from injury" },
    { symptom := "coughing blood", severity := "critical",
      action := "Seek emergency care immediately" },
    { symptom := "sudden vision loss", severity := "critical",
      action := "Seek emergency care immediately" },
    { symptom := "severe abdominal pain", severity := "high",
      action := "Seek urgent medical attention" },
    { symptom := "suicidal thoughts", severity := "critical",
      action := "Call crisis helpline or seek immediate help" } ]

/-- Concrete one-disease engine equipped with the default red-flag list;
"chest pain" is both a KB symptom and a configured red flag. -/
def eR : Engine :=
  { rows := [ { disease := "Pneumonia", symptom := "chest pain", weight := 7 / 10 },
              { disease := "Pneumonia", symptom := "cough", weight := 9 / 10 },
              { disease := "Pneumonia", symptom := "fever", weight := 85 / 100 } ]
    diseases := ["Pneumonia"]
    symptoms := ["chest pain", "cough", "fever"]
    redFlags := defaultRedFlags
    diseasePriors := [("Pneumonia", 1)]
    infoGainCache := []
    gainScore := fun _ _ => 0 }

theorem foldl_mul_map (f : String → ℚ) :
    ∀ (l : List String) (a : ℚ),
      l.foldl (fun acc s => acc * f s) a = a * (l.map f).prod := by
  intro l
  induction l with
  | nil => intro a; simp
  | cons x xs ih =>
    intro a
    simp only [List.foldl_cons, List.map_cons, List.prod_cons, ih, mul_assoc]

theorem sum_map_div (c : ℚ) (f : String → ℚ) :
    ∀ l : List String, (l.map (fun x => f x / c)).sum = (l.map f).sum / c := by
  intro l
  induction l with
  | nil => simp
  | cons x xs ih => simp [ih, add_div]

theorem sum_map_const (c : ℚ) :
    ∀ l : List String, (l.map (fun _ => c)).sum = (l.length : ℚ) * c := by
  intro l
  induction l with
  | nil => simp
  | cons x xs ih =>
    simp only [List.map_cons, List.sum_cons, ih, List.length_cons]
    push_cast
    ring

/-- Claim C2.  In `update`, once the current question has been recorded, the
stopping decision is exactly the 3-5-7 policy: with n questions asked the
session continues unconditionally while n < 3; for 3 ≤ n < 5 it stops exactly
when the top posterior probability is at least 0.85; for 5 ≤ n < 7 it stops
exactly when the top posterior probability is at least 0.60; and from n = 7 on
it stops unconditionally. -/
theorem stop_decision_is_357_policy (n : Nat) (t : ℚ) :
    shouldStop n t = true ↔
      (7 ≤ n ∨ (3 ≤ n ∧ n < 5 ∧ (85 : ℚ) / 100 ≤ t) ∨
        (5 ≤ n ∧ n < 7 ∧ (60 : ℚ) / 100 ≤ t)) := by
  unfold shouldStop MIN_QUESTIONS SOFT_MAX_QUESTIONS HARD_MAX_QUESTIONS
    HIGH_CONFIDENCE LOW_CONFIDENCE
  split_ifs with h1 h2 h3
  · simp only [Bool.false_eq_true, false_iff]
    rintro (h | ⟨h, _, _⟩ | ⟨h, _, _⟩) <;> omega
  · simp only [decide_eq_true_eq]
    constructor
    · intro ht; exact Or.inr (Or.inl ⟨by omega, h2, ht⟩)
    · rintro (h | ⟨_, _, ht⟩ | ⟨h5, _, _⟩)
      · omega
      · exact ht
      · omega
  · simp only [decide_eq_true_eq]
    constructor
    · intro ht; exact Or.inr (Or.inr ⟨by omega, h3, ht⟩)
    · rintro (h | ⟨_, h5, _⟩ | ⟨_, _, ht⟩)
      · omega
      · omega
      · exact ht
  · simp only [true_iff]
    exact Or.inl (by omega)

/-- Claim C9.  On the two-disease knowledge base A (prior 0.5, P(fever|A)=0.9,
P(cough|A)=0.1) and B (prior 0.5, P(fever|B)=0.1, P(cough|B)=0.9), starting a
session with ["fever"] yields the exact Bayes posterior 0.9 for A and 0.1 for
B. -/
theorem two_disease_fever_scenario :
    (eAB.start ["fever"] "sid").posterior = [("A", 9 / 10), ("B", 1 / 10)] := by
  with_unfolding_all decide

/-- Claim C10.  A session returned by `start` has an empty asked-questions
list and a question count of zero, whatever the initial symptom list: initial
symptoms never count toward the 3-5-7 question budget. -/
theorem start_question_budget_zero (e : Engine) (syms : List String) (sid : String) :
    (e.start syms sid).askedQuestions = [] ∧ (e.start syms sid).questionCount = 0 :=
  ⟨rfl, rfl⟩

/-- Claim C4 (failing input).  On engine `eC`, the fresh session's pending
question is "s0" with nothing denied; answering the uncertain option
"not sure" nevertheless records "s0" as denied (because "no" is a substring of
"not sure"), while confirming nothing — contradicting the claim, the spec and
the source's own comment that such answers change neither symptom list. -/
theorem not_sure_answer_denies_symptom :
    (eC.start [] "sid").negativeSymptoms = [] ∧
    (eC.start [] "sid").nextQuestion = some { symptom := "s0" } ∧
    (eC.update (eC.start [] "sid") "not sure" none).negativeSymptoms = ["s0"] ∧
    (eC.update (eC.start [] "sid") "not sure" none).observedSymptoms = [] := by
  with_unfolding_all decide

/-- Claim C3 (counterexample).  On engine `eR`, an in-progress session whose
first pending question is the configured red flag "chest pain", updated with
answer "yes", records the red-flag hit but stays IN_PROGRESS instead of
entering EMERGENCY; and a session started in EMERGENCY (initial symptom
"chest pain") leaves EMERGENCY on the very next `update`. -/
theorem red_flag_confirm_no_emergency :
    (eR.start [] "sid").nextQuestion = some { symptom := "chest pain" } ∧
    (eR.update (eR.start [] "sid") "yes" none).redFlags ≠ [] ∧
    (eR.update (eR.start [] "sid") "yes" none).status = SessionStatus.IN_PROGRESS ∧
    (eR.start ["chest pain"] "sid").status = SessionStatus.EMERGENCY ∧
    (eR.update (eR.start ["chest pain"] "sid") "yes" none).status ≠
      SessionStatus.EMERGENCY := by
  with_unfolding_all decide

/-- Claim C7 (counterexample).  A session produced by `start(["fever"])`
followed by the single call `update(state, "no", symptom="fever")` — the
three-argument form the source itself uses — holds "fever" in both the
confirmed and the denied symptom lists. -/
theorem explicit_override_breaks_disjointness :
    "fever" ∈ (eAB.update (eAB.start ["fever"] "sid") "no" (some "fever")).confirmedSymptoms ∧
    "fever" ∈ (eAB.update (eAB.start ["fever"] "sid") "no" (some "fever")).deniedSymptoms := by
  with_unfolding_all decide

theorem updateWith_asked (e : Engine) (s : Session) (a c : String) :
    (e.updateWith s a c).askedQuestions =
      if pynorm c ∈ s.askedQuestions then s.askedQuestions
      else s.askedQuestions ++ [pynorm c] := by
  unfold Engine.updateWith
  dsimp only
  repeat' split
  all_goals rfl

theorem updateWith_observed (e : Engine) (s : Session) (a c : String) :
    (e.updateWith s a c).observedSymptoms =
      if isConfirmAnswer (pynorm a) ∧ pynorm c ∉ s.observedSymptoms
      then s.observedSymptoms ++ [pynorm c] else s.observedSymptoms := by
  unfold Engine.updateWith
  dsimp only
  repeat' split
  all_goals rfl

theorem updateWith_negative (e : Engine) (s : Session) (a c : String) :
    (e.updateWith s a c).negativeSymptoms =
      if isDenyAnswer (pynorm a) ∧ pynorm c ∉ s.negativeSymptoms
      then s.negativeSymptoms ++ [pynorm c] else s.negativeSymptoms := by
  unfold Engine.updateWith
  dsimp only
  repeat' split
  all_goals rfl

theorem updateWith_candidates (e : Engine) (s : Session) (a c : String) :
    (e.updateWith s a c).candidateQuestions = s.candidateQuestions := by
  unfold Engine.updateWith
  dsimp only
  repeat' split
  all_goals rfl

theorem updateWith_redFlags (e : Engine) (s : Session) (a c : String) :
    (e.updateWith s a c).redFlags =
      if isConfirmAnswer (pynorm a) ∧ pynorm c ∉ s.observedSymptoms
      then s.redFlags ++ e.checkRedFlags [pynorm c] else s.redFlags := by
  unfold Engine.updateWith
  dsimp only
  repeat' split
  all_goals rfl

theorem updateWith_status (e : Engine) (s : Session) (a c : String) :
    (e.updateWith s a c).status = SessionStatus.IN_PROGRESS ∨
      (e.updateWith s a c).status = SessionStatus.FINISHED := by
  unfold Engine.updateWith
  dsimp only
  repeat' split
  all_goals first
    | exact Or.inl rfl
    | exact Or.inr rfl

theorem updateWith_nextQuestion (e : Engine) (s : Session) (a c : String) :
    (e.updateWith s a c).nextQuestion = none ∨
      e.getBestQuestion (e.updateWith s a c).posterior
          ((e.updateWith s a c).observedSymptoms ++ (e.updateWith s a c).negativeSymptoms ++
            (e.updateWith s a c).askedQuestions) =
        (e.updateWith s a c).nextQuestion := by
  unfold Engine.updateWith
  dsimp only
  repeat' split
  all_goals first
    | exact Or.inl rfl
    | exact Or.inr (by assumption)

/-- Claim C1 (amended).  The result of `update` is independent of the status
of the input session: no terminal-state check exists, so an `update` on a
FINISHED or EMERGENCY session is processed exactly as if the session were in
progress, and no invalid-operation error is ever signalled (the function is
total into session states). -/
theorem update_ignores_input_status (e : Engine) (s : Session) (a : String)
    (so : Option String) (st : SessionStatus) :
    e.update { s with status := st } a so = e.update s a so := by
  cases s
  cases so <;> rfl

/-- Claim C1 (counterexample).  The concrete run `runC` reaches FINISHED
after three questions, yet a further `update` returns a state with a fourth
asked question rather than an invalid-operation error: the session is
mutated, not protected. -/
theorem finished_update_mutates :
    (runC 3).status = SessionStatus.FINISHED ∧
    (eC.update (runC 3) "yes" none).askedQuestions.length =
      (runC 3).askedQuestions.length + 1 := by
  with_unfolding_all decide

/-- Claim C3 (amended).  An `update` never produces the EMERGENCY status —
every branch yields IN_PROGRESS or FINISHED per the stopping policy, even when
the answer just confirmed a red-flag symptom (the hit is only appended to the
session's red-flag list, as the second conjunct states) and even when the
input session already was EMERGENCY. -/
theorem update_never_emergency (e : Engine) (s : Session) (a : String)
    (so : Option String) (c : String) :
    (e.update s a so).status ≠ SessionStatus.EMERGENCY ∧
    (e.updateWith s a c).redFlags =
      (if isConfirmAnswer (pynorm a) ∧ pynorm c ∉ s.observedSymptoms
       then s.redFlags ++ e.checkRedFlags [pynorm c] else s.redFlags) := by
  refine ⟨?_, updateWith_redFlags e s a c⟩
  unfold Engine.update
  cases hr : resolveSymptom s so with
  | none => simp
  | some c0 =>
    rcases updateWith_status e s a c0 with h | h <;> simp [h]

/-- Claim C6 (amended).  One `update` call grows the asked-questions list by
exactly one when it resolves a symptom that is not yet recorded there (the
normal in-progress flow, where the pending question is always fresh), and
leaves it unchanged otherwise; the engine itself imposes no cap at 7 — the
bound only holds for callers that stop updating once the session is
FINISHED. -/
theorem update_asked_growth (e : Engine) (s : Session) (a : String)
    (so : Option String) :
    (e.update s a so).askedQuestions.length =
      (match resolveSymptom s so with
       | none => s.askedQuestions.length
       | some c =>
         if pynorm c ∈ s.askedQuestions then s.askedQuestions.length
         else s.askedQuestions.length + 1) := by
  unfold Engine.update
  cases hr : resolveSymptom s so with
  | none => rfl
  | some c =>
    show (e.updateWith s a c).askedQuestions.length = _
    rw [updateWith_asked]
    split <;> simp_all

/-- Claim C6 (counterexample).  Eight answer-only `update` calls after `start`
are accepted by the engine and leave a reachable session with eight asked
questions, exceeding the claimed bound of `HARD_MAX_QUESTIONS = 7`. -/
theorem question_count_exceeds_seven :
    Reachable eC (runC 8) ∧ (runC 8).askedQuestions.length = 8 := by
  constructor
  · exact Reachable.step (runC 7) "yes" (Reachable.step (runC 6) "yes"
      (Reachable.step (runC 5) "yes" (Reachable.step (runC 4) "yes"
        (Reachable.step (runC 3) "yes" (Reachable.step (runC 2) "yes"
          (Reachable.step (runC 1) "yes" (Reachable.step (runC 0) "yes"
            (Reachable.init [] "sid"))))))))
  · with_unfolding_all decide

/-- Claim C8.  `start` enters EMERGENCY exactly when `check_red_flags` fires
on the normalized initial symptoms — independently of the posterior, which is
computed afterwards — carrying the nonempty hit list, and enters IN_PROGRESS
when no red flag matches. -/
theorem start_red_flag_precedence (e : Engine) (syms : List String) (sid : String) :
    (e.checkRedFlags (syms.map pynorm) ≠ [] →
      (e.start syms sid).status = SessionStatus.EMERGENCY ∧
        (e.start syms sid).redFlags ≠ []) ∧
    (e.checkRedFlags (syms.map pynorm) = [] →
      (e.start syms sid).status = SessionStatus.IN_PROGRESS) := by
  have hst : (e.start syms sid).status =
      (if (e.checkRedFlags (syms.map pynorm)).isEmpty then SessionStatus.IN_PROGRESS
       else SessionStatus.EMERGENCY) := rfl
  have hrf : (e.start syms sid).redFlags = e.checkRedFlags (syms.map pynorm) := rfl
  constructor
  · intro h
    constructor
    · rw [hst]
      cases hc : e.checkRedFlags (syms.map pynorm) with
      | nil => exact absurd hc h
      | cons x xs => rfl
    · rw [hrf]; exact h
  · intro h
    rw [hst, h]; rfl

/-- Claim C8 (witness).  Starting with the configured red flag "chest pain"
on the concrete engine `eR` yields EMERGENCY with a nonempty red-flag list. -/
theorem start_red_flag_precedence_witness :
    eR.checkRedFlags (["chest pain"].map pynorm) ≠ [] ∧
      ((eR.start ["chest pain"] "sid").status = SessionStatus.EMERGENCY ∧
        (eR.start ["chest pain"] "sid").redFlags ≠ []) :=
  ⟨by with_unfolding_all decide,
   (start_red_flag_precedence eR ["chest pain"] "sid").1 (by with_unfolding_all decide)⟩

/-- Claim C5.  For a nonempty disease list, the posterior calculator returns a
distribution summing exactly to 1 (hence within 1e-6): when the total mass
`Σ_d prior(d)·Π weight·Π (1-weight)` is positive it returns each disease's
mass divided by the total, and otherwise it falls back to the uniform
distribution over all diseases. -/
theorem posterior_bayes_normalized (e : Engine) (prior : List (String × ℚ))
    (pos neg : List String) (h : e.diseases ≠ []) :
    ((e.computePosterior prior pos neg).map (fun p => p.2)).sum = 1 ∧
    (0 < bayesTotal e prior pos neg →
      e.computePosterior prior pos neg =
        e.diseases.map
          (fun d => (d, bayesScore e prior pos neg d / bayesTotal e prior pos neg))) ∧
    (bayesTotal e prior pos neg ≤ 0 →
      e.computePosterior prior pos neg =
        e.diseases.map (fun d => (d, 1 / (e.diseases.length : ℚ)))) := by
  have hscore : ∀ d : String,
      neg.foldl (fun acc s => acc * (1 - e.weight d s))
        (pos.foldl (fun acc s => acc * e.weight d s)
          (lookupD prior d (1 / (e.diseases.length : ℚ)))) =
      bayesScore e prior pos neg d := by
    intro d
    rw [foldl_mul_map, foldl_mul_map]
    rfl
  have hpost : e.computePosterior prior pos neg =
      if 0 < bayesTotal e prior pos neg
      then (e.diseases.map (fun d => (d, bayesScore e prior pos neg d))).map
             (fun p => (p.1, p.2 / bayesTotal e prior pos neg))
      else e.diseases.map (fun d => (d, 1 / (e.diseases.length : ℚ))) := by
    simp only [Engine.computePosterior, hscore]
    rw [List.map_map]
    rfl
  have hlen : ((e.diseases.length : ℚ)) ≠ 0 :=
    Nat.cast_ne_zero.mpr (fun h0 => h (List.length_eq_zero.mp h0))
  rw [hpost]
  by_cases ht : 0 < bayesTotal e prior pos neg
  · rw [if_pos ht]
    refine ⟨?_, fun _ => ?_, fun hle => absurd ht (not_lt.mpr hle)⟩
    · rw [List.map_map, List.map_map]
      show (e.diseases.map
        (fun d => bayesScore e prior pos neg d / bayesTotal e prior pos neg)).sum = 1
      rw [sum_map_div (bayesTotal e prior pos neg) (bayesScore e prior pos neg)]
      show bayesTotal e prior pos neg / bayesTotal e prior pos neg = 1
      exact div_self (ne_of_gt ht)
    · rw [List.map_map]
      rfl
  · rw [if_neg ht]
    refine ⟨?_, fun ht' => absurd ht' ht, fun _ => rfl⟩
    rw [List.map_map]
    show (e.diseases.map (fun _ => 1 / (e.diseases.length : ℚ))).sum = 1
    rw [sum_map_const]
    rw [mul_one_div]
    exact div_self hlen

/-- Claim C5 (witness).  The two-disease engine has a nonempty disease list
and its posterior after confirming "fever" sums exactly to 1. -/
theorem posterior_bayes_normalized_witness :
    eAB.diseases ≠ [] ∧
      ((eAB.computePosterior [("A", 1 / 2), ("B", 1 / 2)] ["fever"] []).map
        (fun p => p.2)).sum = 1 :=
  ⟨by with_unfolding_all decide,
   (posterior_bayes_normalized eAB [("A", 1 / 2), ("B", 1 / 2)] ["fever"] []
     (by with_unfolding_all decide)).1⟩

theorem foldl_preserve {α β : Type} (step : β → α → β) (P : β → Prop) :
    ∀ (l : List α) (acc : β), P acc → (∀ b x, P b → x ∈ l → P (step b x)) →
      P (l.foldl step acc) := by
  intro l
  induction l with
  | nil => intro acc hacc _; exact hacc
  | cons x xs ih =>
    intro acc hacc hstep
    exact ih (step acc x) (hstep acc x hacc (List.mem_cons_self x xs))
      (fun b y hb hy => hstep b y hb (List.mem_cons_of_mem x hy))

theorem selStep_preserves (e : Engine) (post : List (String × ℚ)) (excl : List String)
    (acc : Option (String × ℚ)) (s : String)
    (hacc : ∀ b, acc = some b → b.1 ∈ e.symptoms ∧ b.1 ∉ excl)
    (hs : s ∈ e.symptoms) :
    ∀ b, selStep e post excl acc s = some b → b.1 ∈ e.symptoms ∧ b.1 ∉ excl := by
  intro b hb
  unfold selStep at hb
  by_cases hmem : s ∈ excl
  · rw [if_pos hmem] at hb
    exact hacc b hb
  · rw [if_neg hmem] at hb
    dsimp only at hb
    split at hb
    · cases hb
      exact ⟨hs, hmem⟩
    · exact hacc b hb

theorem getBestQuestion_mem (e : Engine) (post : List (String × ℚ)) (excl : List String)
    (q : Question) (h : e.getBestQuestion post excl = some q) :
    q.symptom ∈ e.symptoms ∧ q.symptom ∉ excl := by
  unfold Engine.getBestQuestion at h
  dsimp only at h
  rcases Option.map_eq_some'.mp h with ⟨b, hb, hq⟩
  have hcands : ∀ s ∈ (if ((((sortDesc post).take 10).filter
        (fun p => (1 : ℚ) / 100 < p.2)).map (fun p => p.1)).any (fun d => d ∈ e.diseases)
      then e.symptoms else ([] : List String)), s ∈ e.symptoms := by
    split
    · exact fun s hs => hs
    · intro s hs; cases hs
  have hspec := foldl_preserve (selStep e post excl)
    (fun acc => ∀ b, acc = some b → b.1 ∈ e.symptoms ∧ b.1 ∉ excl) _ none
    (fun b hb => by cases hb)
    (fun b x hbp hx => selStep_preserves e post excl b x hbp (hcands x hx))
  obtain ⟨hb1, hb2⟩ := hspec b hb
  cases hq
  exact ⟨hb1, hb2⟩

theorem good_start (e : Engine) (hE : ∀ s ∈ e.symptoms, pynorm s = s)
    (initial : List String) (sid : String) : GoodSession (e.start initial sid) := by
  refine ⟨?_, ?_, ?_, ?_⟩
  · intro x hx hneg
    exact absurd hneg (List.not_mem_nil x)
  · intro x hx
    exact absurd hx (List.not_mem_nil x)
  · intro q hq
    have hsel : e.getBestQuestion (e.computePosterior e.diseasePriors (initial.map pynorm) [])
        (initial.map pynorm) = some q := hq
    obtain ⟨hq1, hq2⟩ := getBestQuestion_mem e _ _ q hsel
    exact ⟨hE _ hq1, hq2, List.not_mem_nil _⟩
  · intro c hc
    have hc' : c ∈ e.symptoms.filter (fun s => s ∉ initial.map pynorm) := hc
    rcases List.mem_filter.mp hc' with ⟨hc1, hc2⟩
    have hc2' : c ∉ initial.map pynorm := by simpa using hc2
    exact ⟨hE c hc1, fun hobs => absurd hobs hc2'⟩

theorem good_updateWith (e : Engine) (hE : ∀ s ∈ e.symptoms, pynorm s = s)
    (s : Session) (hg : GoodSession s) (a c : String)
    (hcs : pynorm c = c) (h1 : c ∉ s.observedSymptoms) (h2 : c ∉ s.negativeSymptoms)
    (h3 : c ∉ s.askedQuestions) :
    GoodSession (e.updateWith s a c) := by
  obtain ⟨g1, g2, g3, g4⟩ := hg
  have hasked : (e.updateWith s a c).askedQuestions = s.askedQuestions ++ [c] := by
    rw [updateWith_asked, hcs, if_neg h3]
  have hobs : (e.updateWith s a c).observedSymptoms =
      if isConfirmAnswer (pynorm a) = true then s.observedSymptoms ++ [c]
      else s.observedSymptoms := by
    rw [updateWith_observed, hcs]
    by_cases hcf : isConfirmAnswer (pynorm a) = true
    · rw [if_pos ⟨hcf, h1⟩, if_pos hcf]
    · rw [if_neg (fun hh => hcf hh.1), if_neg hcf]
  have hneg : (e.updateWith s a c).negativeSymptoms =
      if isDenyAnswer (pynorm a) = true then s.negativeSymptoms ++ [c]
      else s.negativeSymptoms := by
    rw [updateWith_negative, hcs]
    by_cases hd : isDenyAnswer (pynorm a) = true
    · rw [if_pos ⟨hd, h2⟩, if_pos hd]
    · rw [if_neg (fun hh => hd hh.1), if_neg hd]
  have hcand := updateWith_candidates e s a c
  refine ⟨?_, ?_, ?_, ?_⟩
  · intro x hx
    rw [hobs] at hx
    rw [hneg]
    by_cases hcf : isConfirmAnswer (pynorm a) = true
    · have hdf : isDenyAnswer (pynorm a) = false := by
        unfold isDenyAnswer
        rw [hcf]
        rfl
      rw [if_pos hcf] at hx
      rw [if_neg (by simp [hdf])]
      rcases List.mem_append.mp hx with hx' | hx'
      · exact g1 x hx'
      · have hxc : x = c := List.mem_singleton.mp hx'
        subst hxc
        exact h2
    · rw [if_neg hcf] at hx
      by_cases hd : isDenyAnswer (pynorm a) = true
      · rw [if_pos hd]
        intro hmem
        rcases List.mem_append.mp hmem with hx' | hx'
        · exact g1 x hx hx'
        · have hxc : x = c := List.mem_singleton.mp hx'
          subst hxc
          exact h1 hx
      · rw [if_neg hd]
        exact g1 x hx
  · intro x hx
    rw [hneg] at hx
    rw [hasked]
    by_cases hd : isDenyAnswer (pynorm a) = true
    · rw [if_pos hd] at hx
      rcases List.mem_append.mp hx with hx' | hx'
      · exact List.mem_append_left _ (g2 x hx')
      · exact List.mem_append_right _ hx'
    · rw [if_neg hd] at hx
      exact List.mem_append_left _ (g2 x hx)
  · intro q hq
    rcases updateWith_nextQuestion e s a c with hnone | heq
    · rw [hnone] at hq
      cases hq
    · rw [hq] at heq
      obtain ⟨hq1, hq2⟩ := getBestQuestion_mem e _ _ q heq
      refine ⟨hE _ hq1, ?_, ?_⟩
      · intro hmem
        exact hq2 (List.mem_append_left _ (List.mem_append_left _ hmem))
      · intro hmem
        exact hq2 (List.mem_append_right _ hmem)
  · intro x hx
    rw [hcand] at hx
    obtain ⟨k1, k2⟩ := g4 x hx
    refine ⟨k1, ?_⟩
    intro hxobs
    rw [hobs] at hxobs
    rw [hasked]
    by_cases hcf : isConfirmAnswer (pynorm a) = true
    · rw [if_pos hcf] at hxobs
      rcases List.mem_append.mp hxobs with hx' | hx'
      · exact List.mem_append_left _ (k2 hx')
      · exact List.mem_append_right _ hx'
    · rw [if_neg hcf] at hxobs
      exact List.mem_append_left _ (k2 hxobs)

theorem good_update_none (e : Engine) (hE : ∀ s ∈ e.symptoms, pynorm s = s)
    (s : Session) (hg : GoodSession s) (a : String) :
    GoodSession (e.update s a none) := by
  unfold Engine.update
  cases hr : resolveSymptom s none with
  | none =>
    obtain ⟨g1, g2, g3, g4⟩ := hg
    exact ⟨g1, g2, g3, g4⟩
  | some c =>
    have hres := hr
    unfold resolveSymptom at hres
    cases hq : s.nextQuestion with
    | some q =>
      rw [hq] at hres
      cases hres
      obtain ⟨hn1, hn2, hn3⟩ := hg.2.2.1 q hq
      exact good_updateWith e hE s hg a q.symptom hn1 hn2
        (fun hmem => hn3 (hg.2.1 _ hmem)) hn3
    | none =>
      rw [hq] at hres
      cases hf : s.candidateQuestions.filter (fun c => c ∉ s.askedQuestions) with
      | nil =>
        rw [hf] at hres
        cases hres
      | cons c0 rest =>
        rw [hf] at hres
        cases hres
        have hmem : c ∈ s.candidateQuestions.filter (fun x => x ∉ s.askedQuestions) := by
          rw [hf]
          exact List.mem_cons_self c rest
        rcases List.mem_filter.mp hmem with ⟨hc1, hc2⟩
        have hc2' : c ∉ s.askedQuestions := by simpa using hc2
        obtain ⟨k1, k2⟩ := hg.2.2.2 c hc1
        exact good_updateWith e hE s hg a c k1 (fun hobs => hc2' (k2 hobs))
          (fun hneg => hc2' (hg.2.1 _ hneg)) hc2'

theorem reachable_good (e : Engine) (hE : ∀ s ∈ e.symptoms, pynorm s = s) :
    ∀ st, Reachable e st → GoodSession st := by
  intro st h
  induction h with
  | init initial sid => exact good_start e hE initial sid
  | step s a _ ih => exact good_update_none e hE s ih a

/-- Claim C7 (amended).  For an engine whose symptom vocabulary is normalized
(as the CSV loader guarantees by lowercasing every symptom), every session
produced by `start` followed by any sequence of answer-only `update` calls
keeps confirmed and denied symptoms disjoint: the engine only ever resolves a
pending symptom that is in neither list.  (With an explicit symptom override —
the three-argument call — the disjointness can be broken, see the
counterexample.) -/
theorem reachable_confirm_deny_disjoint (e : Engine)
    (hE : ∀ s ∈ e.symptoms, pynorm s = s) (st : Session) (hr : Reachable e st) :
    ∀ x ∈ st.confirmedSymptoms, x ∉ st.deniedSymptoms :=
  (reachable_good e hE st hr).1

/-- Claim C7 (witness).  The two-disease engine has a normalized vocabulary
and its freshly started session, reachable by definition, does not hold
"fever" (which is confirmed) among the denied symptoms. -/
theorem reachable_confirm_deny_disjoint_witness :
    (∀ s ∈ eAB.symptoms, pynorm s = s) ∧
      "fever" ∉ (eAB.start ["fever"] "sid").deniedSymptoms :=
  ⟨by with_unfolding_all decide,
   reachable_confirm_deny_disjoint eAB (by with_unfolding_all decide) _
     (Reachable.init ["fever"] "sid") "fever" (by with_unfolding_all decide)⟩

end AIMed
